import Mathlib

/-!
Shallow embedding of the ZenML step-run execution core
(`src/zenml/orchestrators/step_runner.py`) and of
`UserModel.verify_password` (`src/zenml/models/user_management_models.py`),
with theorems settling the frozen claims about the step runner's output
validation, output storage, context lifecycle, hook dispatch, input
resolution, model-version linking, settings resolution and password
verification.

External collaborators that are not part of the sources
(`is_setting_enabled`, `materializer_utils.select_materializer`, the global
`materializer_registry`, passlib's `CryptContext`) are modelled from the
spec at their interface boundary; each such definition is marked
`Modelled from the spec` in its doc comment.
-/

namespace ZenML

/-- Runtime type tags for the Python values the step runner inspects. -/
inductive PyType where
  | intT
  | strT
  | boolT
  | noneT
  | listT
  | tupleT
  deriving DecidableEq, Repr

/-- Python runtime values, as far as the step runner inspects them:
`_validate_outputs` looks at `None`-ness, `isinstance` against
`(list, tuple)` and the declared output types, and `len`. -/
inductive PyVal where
  | none
  | int (n : Int)
  | str (s : String)
  | bool (b : Bool)
  | list (xs : List PyVal)
  | tuple (xs : List PyVal)

/-- `type(v)` of a runtime value. -/
def PyVal.typeOf : PyVal → PyType
  | .none => .noneT
  | .int _ => .intT
  | .str _ => .strT
  | .bool _ => .boolT
  | .list _ => .listT
  | .tuple _ => .tupleT

/-- Python `isinstance` for this value model; `bool` is a subclass of
`int`, every other modelled type is exact. -/
def isinstance (v : PyVal) : PyType → Bool
  | .intT => v.typeOf == .intT || v.typeOf == .boolT
  | t => v.typeOf == t

/-- `isinstance(return_values, (list, tuple))`, returning the elements when
the check passes. -/
def asSequence : PyVal → Option (List PyVal)
  | .list xs => some xs
  | .tuple xs => some xs
  | _ => Option.none

/-- A declarative model reference, already taken through
`Model._get_or_create_model_version()`: the `Model` class is not part of
the sources, so a reference is modelled as the concrete
(model id, model version id) pair the resolver returns. -/
structure ModelRef where
  modelId : Nat
  versionId : Nat
  deriving DecidableEq, Repr

/-- `ArtifactConfig` attached to an output annotation: optional custom
artifact name, optional version, optional model binding (`_model`). -/
structure ArtifactConfig where
  name : Option String := Option.none
  version : Option String := Option.none
  model : Option ModelRef := Option.none
  deriving DecidableEq, Repr

/-- The `resolved_annotation` of an `OutputSignature`: `Any`, a concrete
type, or a union of types. -/
inductive OutputAnn where
  | any
  | ty (t : PyType)
  | unionOf (ts : List PyType)
  deriving DecidableEq, Repr

/-- `OutputSignature`: resolved output annotation plus the optional
`ArtifactConfig`. -/
structure OutputSig where
  resolvedAnn : OutputAnn
  artifactConfig : Option ArtifactConfig := Option.none
  deriving DecidableEq, Repr

/-- The `StepInterfaceError` variants raised by `_validate_outputs`, plus
the error raised when no materializer can be found while storing outputs. -/
inductive StepError where
  | expectedNoOutputs (ret : PyVal)
  | notAListOrTuple (ret : PyVal)
  | wrongArity (expected actual : Nat)
  | wrongType (outputName : String) (ann : OutputAnn) (actualTy : PyType)
  | noMaterializer (t : PyType)

/-- The errors of `_validate_outputs` that reject the shape of the return
value of a multi-output step: not a list/tuple, or a list/tuple of the
wrong length. Both are `StepInterfaceError`s in the source. -/
def StepError.isArityFailure : StepError → Bool
  | .notAListOrTuple _ => true
  | .wrongArity _ _ => true
  | _ => false

/-- The per-output type check inside `_validate_outputs`: `Any` passes
unchecked, a concrete type uses `isinstance`, a union checks against the
union's members (`get_args`). Returns the error to raise, if any. -/
def checkOutputType (outputName : String) (ann : OutputAnn) (v : PyVal) :
    Option StepError :=
  match ann with
  | .any => Option.none
  | .ty t =>
    if isinstance v t then Option.none
    else some (.wrongType outputName ann v.typeOf)
  | .unionOf ts =>
    if ts.any (fun t => isinstance v t) then Option.none
    else some (.wrongType outputName ann v.typeOf)

/-- The final loop of `_validate_outputs`: walk
`zip(return_values, output_annotations.items())`, raising on the first
type mismatch and otherwise accumulating `validated_outputs` in order. -/
def validateOutputTypes :
    List PyVal → List (String × OutputSig) →
    Except StepError (List (String × PyVal))
  | v :: vs, (nm, sig) :: sigs =>
    match checkOutputType nm sig.resolvedAnn v with
    | some e => .error e
    | Option.none =>
      match validateOutputTypes vs sigs with
      | .error e => .error e
      | .ok rest => .ok ((nm, v) :: rest)
  | _, _ => .ok []

/-- The single-output wrapping of `_validate_outputs`: with exactly one
declared output the raw return value is wrapped as `[return_values]`. -/
def wrapReturn (return_values : PyVal)
    (output_annotations : List (String × OutputSig)) : PyVal :=
  if output_annotations.length = 1 then .list [return_values]
  else return_values

/-- `StepRunner._validate_outputs`: zero declared outputs require a `None`
return; one declared output wraps the raw return; multiple declared
outputs require a list or tuple of exactly matching arity; then each value
is checked against its resolved annotation. -/
def validate_outputs (return_values : PyVal)
    (output_annotations : List (String × OutputSig)) :
    Except StepError (List (String × PyVal)) :=
  if output_annotations.length = 0 then
    match return_values with
    | .none => .ok []
    | rv => .error (.expectedNoOutputs rv)
  else
    match asSequence (wrapReturn return_values output_annotations) with
    | Option.none => .error (.notAListOrTuple return_values)
    | some vs =>
      if output_annotations.length ≠ vs.length then
        .error (.wrongArity output_annotations.length vs.length)
      else
        validateOutputTypes vs output_annotations

/-- A materializer class, reduced to what selection needs: an identity and
the runtime types it can handle (`ASSOCIATED_TYPES`). -/
structure MaterializerClass where
  id : Nat
  associated : List PyType
  deriving DecidableEq, Repr

/-- Modelled from the spec: `materializer_utils.select_materializer` is not
in the sources; per the spec, candidates are tried in declaration order and
the first declared candidate matching the value's runtime type is selected
(`none` models the error raised when no candidate matches). -/
def select_materializer (data_type : PyType)
    (materializer_classes : List MaterializerClass) :
    Option MaterializerClass :=
  materializer_classes.find? (fun m => m.associated.contains data_type)

/-- Modelled from the spec: the global `materializer_registry` is not in
the sources; it is keyed by exact runtime type, with an explicitly
settable default entry used when no exact match exists. -/
structure MaterializerRegistry where
  entries : List (PyType × MaterializerClass)
  defaultMaterializer : Option MaterializerClass := Option.none
  deriving DecidableEq, Repr

/-- Modelled from the spec: `materializer_registry[data_type]` — the exact
runtime-type entry if present, else the default entry, else an error. -/
def registryLookup (reg : MaterializerRegistry) (t : PyType) :
    Option MaterializerClass :=
  match reg.entries.lookup t with
  | some m => some m
  | Option.none => reg.defaultMaterializer

/-- The slice of step and run state that `_store_output_artifacts` reads:
the step context's pipeline/step identity, the loaded output materializer
candidates, pre-allocated URIs, output artifact configs
(`output_annotations[name].artifact_config`), the per-output
`default_materializer_source` from the step config, and the metadata/tags
accumulated on the step context. -/
structure StoreContext where
  pipelineName : Option String
  stepName : String
  outputMaterializers : String → List MaterializerClass
  outputArtifactUris : String → String
  outputConfigs : String → Option ArtifactConfig
  defaultMaterializerSource : String → Option MaterializerClass
  outputMetadata : String → List (String × String)
  outputTags : String → List String

/-- Lines 577-590 of `_store_output_artifacts`: when the step config
carries a `default_materializer_source` for the output, it is loaded and
installed as the global registry's default entry before the lookup. -/
def installDefault (ctx : StoreContext) (reg : MaterializerRegistry)
    (output_name : String) : MaterializerRegistry :=
  match ctx.defaultMaterializerSource output_name with
  | some d => { reg with defaultMaterializer := some d }
  | Option.none => reg

/-- The materializer-selection block of `_store_output_artifacts` (lines
562-592): a non-empty declared candidate tuple goes through
`select_materializer`; otherwise the global registry is consulted, after
installing the step config's `default_materializer_source` (when set) as
the registry's default entry. The possibly-updated registry is threaded
through, as the source mutates the process-wide registry. -/
def selectOutputMaterializer (ctx : StoreContext) (reg : MaterializerRegistry)
    (output_name : String) (data_type : PyType) :
    Except StepError (MaterializerRegistry × MaterializerClass) :=
  let classes := ctx.outputMaterializers output_name
  if classes.isEmpty then
    let upd := installDefault ctx reg output_name
    match registryLookup upd data_type with
    | some m => .ok (upd, m)
    | Option.none => .error (.noMaterializer data_type)
  else
    match select_materializer data_type classes with
    | some m => .ok (reg, m)
    | Option.none => .error (.noMaterializer data_type)

/-- `bool(artifact_config.name)`: a custom artifact name is configured iff
the config is present and its `name` is present and non-empty. -/
def hasCustomName (cfg : Option ArtifactConfig) : Bool :=
  match cfg with
  | some c =>
    match c.name with
    | some s => s != ""
    | Option.none => false
  | Option.none => false

/-- The artifact-naming block of `_store_output_artifacts` (lines 595-612):
with a custom name configured the output name is used as-is, otherwise the
derived `pipeline::step::output` composite, with `"unlisted"` standing in
when the pipeline run has no pipeline. -/
def artifactNameFor (ctx : StoreContext) (output_name : String) : String :=
  if hasCustomName (ctx.outputConfigs output_name) then output_name
  else
    let pname :=
      match ctx.pipelineName with
      | some p => p
      | Option.none => "unlisted"
    pname ++ "::" ++ ctx.stepName ++ "::" ++ output_name

/-- The immutable artifact version record persisted by `save_artifact` for
one output, as far as the runner determines it. -/
structure StoredArtifact where
  name : String
  hasCustom : Bool
  version : Option String
  materializer : MaterializerClass
  data : PyVal
  uri : String
  tags : List String
  userMetadata : List (String × String)

/-- The per-output body of `_store_output_artifacts`: select a
materializer, compute the artifact name, gather version, tags and
metadata, and persist the value at the pre-allocated URI. -/
def storeOne (ctx : StoreContext) (reg : MaterializerRegistry)
    (output_name : String) (v : PyVal) :
    Except StepError (MaterializerRegistry × StoredArtifact) :=
  match selectOutputMaterializer ctx reg output_name v.typeOf with
  | .error e => .error e
  | .ok (upd, m) =>
    let cfg := ctx.outputConfigs output_name
    let ver : Option String :=
      match cfg with
      | some c => c.version
      | Option.none => Option.none
    .ok (upd,
      { name := artifactNameFor ctx output_name
        hasCustom := hasCustomName cfg
        version := ver
        materializer := m
        data := v
        uri := ctx.outputArtifactUris output_name
        tags := ctx.outputTags output_name
        userMetadata := ctx.outputMetadata output_name })

/-- `StepRunner._store_output_artifacts`: iterate over the validated
output data in order, storing each output and threading the process-wide
materializer registry. -/
def store_output_artifacts (ctx : StoreContext) (reg : MaterializerRegistry) :
    List (String × PyVal) →
    Except StepError (MaterializerRegistry × List StoredArtifact)
  | [] => .ok (reg, [])
  | (nm, v) :: rest =>
    match storeOne ctx reg nm v with
    | .error e => .error e
    | .ok (upd, a) =>
      match store_output_artifacts ctx upd rest with
      | .error e => .error e
      | .ok (fin, arts) => .ok (fin, a :: arts)

/-- The success path of `StepRunner.run` (lines 236-255):
`_validate_outputs` runs first and any `StepInterfaceError` it raises
propagates before `_store_output_artifacts` is invoked, so an error result
means no output artifact was stored. -/
def process_outputs (ctx : StoreContext) (reg : MaterializerRegistry)
    (return_values : PyVal)
    (output_annotations : List (String × OutputSig)) :
    Except StepError (MaterializerRegistry × List StoredArtifact) :=
  match validate_outputs return_values output_annotations with
  | .error e => .error e
  | .ok output_data => store_output_artifacts ctx reg output_data

/-- A Python exception, with the one distinction the runner's two handlers
make: `run` catches `BaseException` while `load_and_run_hook` catches only
`Exception`. `isException` records whether the exception's class is an
`Exception` subclass (`false` for system-exiting exceptions such as
`KeyboardInterrupt` or `SystemExit`); `kind` and `msg` stand for the
exception's type and message. -/
structure PyExc where
  kind : String
  msg : String
  isException : Bool := true
  deriving DecidableEq, Repr

/-- `StepRunner.load_and_run_hook`: loading the hook source, parsing its
inputs and invoking it all happen inside one `try`; `except Exception`
logs and swallows, while a `BaseException` that is not an `Exception`
escapes the handler. -/
def load_and_run_hook (hook_outcome : Except PyExc Unit) :
    Except PyExc Unit :=
  match hook_outcome with
  | .ok _ => .ok ()
  | .error e => if e.isException then .ok () else .error e

/-- Outcomes of the calls `StepRunner.run` makes after the `StepContext`
singleton is bound (each is collaborator or user code; `.error` means the
call raised). `preSteps` covers `prepare_step_run`,
`_prepare_model_context_for_step`, `_parse_inputs` and
`_link_pipeline_run_to_model_from_context`, which run between the context
bind and the `try` block. `entrypoint` is
`step_instance.call_entrypoint(...)`. `failureHook`/`successHook` are the
declared hooks with their own outcomes (`none` when undeclared).
`publishAndCleanup` covers `get_step_run_metadata`,
`publish_step_run_metadata` and `cleanup_step_run` at the top of the
`finally` block. `validateOutputs`, `storeOutputs` (which includes
`link_step_artifacts_to_model`) and `linkModels`
(`_link_pipeline_run_to_model_from_artifacts`) are the success-path calls
inside the `finally` block. -/
structure RunOutcomes where
  preSteps : Except PyExc Unit := .ok ()
  entrypoint : Except PyExc Unit := .ok ()
  failureHook : Option (Except PyExc Unit) := Option.none
  publishAndCleanup : Except PyExc Unit := .ok ()
  successHook : Option (Except PyExc Unit) := Option.none
  validateOutputs : Except PyExc Unit := .ok ()
  storeOutputs : Except PyExc Unit := .ok ()
  linkModels : Except PyExc Unit := .ok ()

/-- Result of the execution scope of `StepRunner.run`: the exception that
propagates to the caller (or `.ok`), and whether the trailing
`StepContext._clear()` on line 266 was reached. -/
structure RunResult where
  outcome : Except PyExc Unit
  contextCleared : Bool

/-- Whether an `Except`-modelled call returned without raising. -/
def exOk : Except PyExc Unit → Bool
  | .ok _ => true
  | .error _ => false

/-- The success-hook dispatch on the success path of the `finally` block:
no declared hook behaves like a completed call. -/
def successHookResult (o : RunOutcomes) : Except PyExc Unit :=
  match o.successHook with
  | Option.none => .ok ()
  | some h => load_and_run_hook h

/-- The tail of the `finally` block of `StepRunner.run` (lines 225-266):
the `if not step_failed:` suite followed by the trailing
`StepContext._clear()`. Python semantics: a statement raising inside a
`finally` suite aborts the suite — the statements after it, including the
final clear, do not execute — and the new exception replaces any pending
one. -/
def finallyTail (o : RunOutcomes) (step_failed : Bool)
    (pending : Except PyExc Unit) : RunResult :=
  if step_failed then { outcome := pending, contextCleared := true }
  else
    match successHookResult o with
    | .error e => { outcome := .error e, contextCleared := false }
    | .ok _ =>
      match o.validateOutputs with
      | .error e => { outcome := .error e, contextCleared := false }
      | .ok _ =>
        match o.storeOutputs with
        | .error e => { outcome := .error e, contextCleared := false }
        | .ok _ =>
          match o.linkModels with
          | .error e => { outcome := .error e, contextCleared := false }
          | .ok _ => { outcome := pending, contextCleared := true }

/-- The `except BaseException` handler of `StepRunner.run` (lines
202-213): mark the step failed, dispatch the failure hook if declared, and
re-raise. The pair is `(step_failed, pending exception)`; a hook exception
that escapes `load_and_run_hook` replaces the original before the bare
`raise` is reached. -/
def exceptHandler (o : RunOutcomes) : Bool × Except PyExc Unit :=
  match o.entrypoint with
  | .ok _ => (false, .ok ())
  | .error e =>
    match o.failureHook with
    | Option.none => (true, .error e)
    | some h =>
      match load_and_run_hook h with
      | .ok _ => (true, .error e)
      | .error eh => (true, .error eh)

/-- The execution scope of `StepRunner.run` from the point where the
`StepContext` singleton is bound (line 171): the pre-`try` calls, the
`try`/`except BaseException`/`finally` block, and the trailing
`StepContext._clear()`. An exception in the pre-`try` calls propagates
with no `finally` protection; an exception at the top of the `finally`
block (metadata publication/cleanup) aborts the suite before the clear. -/
def run (o : RunOutcomes) : RunResult :=
  match o.preSteps with
  | .error e => { outcome := .error e, contextCleared := false }
  | .ok _ =>
    let stepRes := exceptHandler o
    match o.publishAndCleanup with
    | .error e => { outcome := .error e, contextCleared := false }
    | .ok _ => finallyTail o stepRes.1 stepRes.2

/-- The resolved annotation of a step-function argument after
`resolve_type_annotation`: either a class subclassing `StepContext`
(taking the first branch of `_parse_inputs`) or anything else. -/
inductive ArgAnn where
  | stepContextClass
  | otherAnn
  deriving DecidableEq, Repr

/-- An input artifact version record, reduced to an identity. -/
structure ArtifactVersion where
  id : Nat
  deriving DecidableEq, Repr

/-- What `_parse_inputs` binds a step-function argument to: the live
`StepContext` singleton, an input artifact materialized by
`_load_input_artifact`, or a configured literal parameter. -/
inductive BoundArg where
  | context
  | artifact (a : ArtifactVersion)
  | param (v : PyVal)

/-- The two resolution maps `_parse_inputs` consults: the step's input
artifact versions and the configured literal parameters. -/
structure ParseEnv where
  inputArtifacts : List (String × ArtifactVersion)
  parameters : List (String × PyVal)

/-- The body of the argument loop of `_parse_inputs` (lines 335-358): a
`StepContext`-typed argument is injected from the live context; else an
argument named in the input-artifact map is bound to the materialized
artifact; else a configured parameter is passed through; else the argument
is unsatisfiable. -/
def resolveArg (env : ParseEnv) (ann : String → ArgAnn) (arg : String) :
    Option BoundArg :=
  if ann arg = .stepContextClass then some .context
  else
    match env.inputArtifacts.lookup arg with
    | some a => some (.artifact a)
    | Option.none =>
      match env.parameters.lookup arg with
      | some v => some (.param v)
      | Option.none => Option.none

/-- The argument loop of `_parse_inputs`: bind each argument in order,
raising `RuntimeError` at the first unsatisfiable one. -/
def parseInputsLoop (env : ParseEnv) (ann : String → ArgAnn) :
    List String → Except String (List (String × BoundArg))
  | [] => .ok []
  | arg :: rest =>
    match resolveArg env ann arg with
    | Option.none =>
      .error ("Unable to find value for step function argument " ++ arg)
    | some b =>
      match parseInputsLoop env ann rest with
      | .error e => .error e
      | .ok restB => .ok ((arg, b) :: restB)

/-- The `self`-stripping at the top of `_parse_inputs`. -/
def stripSelf : List String → List String
  | a :: rest => if a = "self" then rest else a :: rest
  | [] => []

/-- `StepRunner._parse_inputs`. -/
def parse_inputs (env : ParseEnv) (ann : String → ArgAnn)
    (args : List String) : Except String (List (String × BoundArg)) :=
  parseInputsLoop env ann (stripSelf args)

/-- `StepRunner._get_model_versions_from_artifacts` (lines 644-674): scan
the published output artifact names in order; an artifact whose config
declares a model adds the resolved (model id, model version id) pair; an
artifact that has a config but no model binding hits the `break` on line
673 and stops the scan; an artifact with no config at all is passed over.
The set accumulated before the `break` is returned. -/
def get_model_versions_from_artifacts
    (cfg : String → Option ArtifactConfig) :
    List String → Finset (Nat × Nat)
  | [] => ∅
  | nm :: rest =>
    match cfg nm with
    | Option.none => get_model_versions_from_artifacts cfg rest
    | some c =>
      match c.model with
      | some m =>
        insert (m.modelId, m.versionId)
          (get_model_versions_from_artifacts cfg rest)
      | Option.none => ∅

/-- `ExternalArtifactConfiguration`, reduced to its optional model
binding (already resolved to concrete ids). -/
structure ExternalArtifactCfg where
  model : Option ModelRef := Option.none
  deriving DecidableEq, Repr

/-- The external-artifact loop of
`_link_pipeline_run_to_model_from_artifacts` (lines 733-740): add the
model binding of every external input artifact that has one. -/
def addExternalModels (externals : List ExternalArtifactCfg)
    (models : Finset (Nat × Nat)) : Finset (Nat × Nat) :=
  externals.foldl
    (fun acc e =>
      match e.model with
      | some m => insert (m.modelId, m.versionId) acc
      | Option.none => acc)
    models

/-- `StepRunner._link_pipeline_run_to_model_from_artifacts`: the set of
distinct (model id, model version id) pairs for which a
run-to-model-version link request is created — one request per distinct
pair, since the pairs are collected in a Python `set`. -/
def link_pipeline_run_to_model_from_artifacts
    (cfg : String → Option ArtifactConfig)
    (artifact_names : List String)
    (external_artifacts : List ExternalArtifactCfg) :
    Finset (Nat × Nat) :=
  addExternalModels external_artifacts
    (get_model_versions_from_artifacts cfg artifact_names)

/-- The collection rule as the spec states it, used to state C4: every
model binding declared by any of the named output artifacts, with no early
stop. -/
def declaredBindings (cfg : String → Option ArtifactConfig) :
    List String → Finset (Nat × Nat)
  | [] => ∅
  | nm :: rest =>
    match (cfg nm).bind (fun c => c.model) with
    | some m => insert (m.modelId, m.versionId) (declaredBindings cfg rest)
    | Option.none => declaredBindings cfg rest

/-- An artifact name stops the source's scan when its config is present
but declares no model binding (the `break` branch). -/
def stopsScan (cfg : String → Option ArtifactConfig) (nm : String) : Bool :=
  match cfg nm with
  | some c => c.model.isNone
  | Option.none => false

/-- Modelled from the spec: `zenml.orchestrators.utils.is_setting_enabled`
is not in the sources; per the spec's two-level override, the per-step
setting wins when set, else the per-pipeline setting wins when set, else
the setting is enabled. -/
def is_setting_enabled
    (is_enabled_on_step is_enabled_on_pipeline : Option Bool) : Bool :=
  match is_enabled_on_step with
  | some b => b
  | Option.none =>
    match is_enabled_on_pipeline with
    | some b => b
    | Option.none => true

/-- `StepRunner.run` lines 122-131: the step-log capture decision,
including the `ENV_ZENML_DISABLE_STEP_LOGS_STORAGE` kill switch checked
first. -/
def step_logging_enabled (env_disable : Bool)
    (enabled_on_step enabled_on_pipeline : Option Bool) : Bool :=
  if env_disable then false
  else is_setting_enabled enabled_on_step enabled_on_pipeline

/-- `UserModel`, reduced to the fields `verify_password` reads. -/
structure UserAccount where
  active : Bool
  password : Option String
  deriving DecidableEq, Repr

/-- `UserModel.get_hashed_password` via `_get_hashed_secret`: `none` when
no password is stored, else its bcrypt hash (`hashOf` stands for passlib's
hashing, or the pass-through of an already-hashed value). -/
def get_hashed_password (hashOf : String → String) (u : UserAccount) :
    Option String :=
  match u.password with
  | some p => some (hashOf p)
  | Option.none => Option.none

/-- `UserModel.verify_password` (lines 172-192): the stored hash is used
only when a user is given, has a stored password and is active; in every
other case the hash stays `None`, and the passlib verification
(`pwdVerify`, standing for `CryptContext.verify`) is executed either way —
the code path does not short-circuit. -/
def verify_password (pwdVerify : String → Option String → Bool)
    (hashOf : String → String) (plain_password : String)
    (user : Option UserAccount) : Bool :=
  let hash : Option String :=
    match user with
    | some u =>
      if u.password.isSome && u.active then get_hashed_password hashOf u
      else Option.none
    | Option.none => Option.none
  pwdVerify plain_password hash

/-! ## Theorems about the claims -/

/-- C7: for all combinations of the per-step and per-pipeline
`enable_step_logs` settings (and the environment kill switch unset), the
step-log capture decision follows the two-level override rule: the
per-step setting wins when it is set, else the per-pipeline setting wins
when it is set, else logging is enabled by default. -/
theorem step_log_two_level_override :
    (∀ (b : Bool) (p : Option Bool),
        step_logging_enabled false (some b) p = b) ∧
    (∀ b : Bool, step_logging_enabled false Option.none (some b) = b) ∧
    step_logging_enabled false Option.none Option.none = true :=
  ⟨fun _ _ => rfl, fun _ => rfl, rfl⟩

/-- C10: `UserModel.verify_password` with a missing user, a user with no
stored password, or an inactive user behaves exactly like verifying
against an absent hash — the passlib verification is still applied, to the
`None` hash — so whenever verification against an absent hash is `false`,
the result is `false`; a nonexistent user is observationally
indistinguishable from a wrong password. -/
theorem verify_password_absent_or_inactive
    (pwdVerify : String → Option String → Bool) (hashOf : String → String)
    (plain : String) (user : Option UserAccount)
    (h : user = Option.none ∨
      ∃ u, user = some u ∧ (u.password = Option.none ∨ u.active = false)) :
    verify_password pwdVerify hashOf plain user = pwdVerify plain Option.none ∧
    (pwdVerify plain Option.none = false →
      verify_password pwdVerify hashOf plain user = false) := by
  have hmain :
      verify_password pwdVerify hashOf plain user = pwdVerify plain Option.none := by
    rcases h with rfl | ⟨u, rfl, hu⟩
    · rfl
    · rcases hu with hpw | hact
      · simp [verify_password, hpw]
      · simp [verify_password, hact]
  exact ⟨hmain, fun hfail => hmain.trans hfail⟩

/-- C10 witness: an inactive user with a stored password is rejected even
by a verifier that accepts whenever a hash is present. -/
theorem verify_password_absent_or_inactive_witness :
    verify_password (fun _ h => h.isSome) (fun s => s) "pw"
      (some { active := false, password := some "pw" }) = false :=
  (verify_password_absent_or_inactive (fun _ h => h.isSome) (fun s => s) "pw"
      (some { active := false, password := some "pw" })
      (Or.inr ⟨{ active := false, password := some "pw" }, rfl, Or.inr rfl⟩)).2
    rfl

/-- The first component of `exceptHandler` is exactly "the entrypoint
raised": the failure-hook dispatch never changes `step_failed`. -/
theorem exceptHandler_fst (o : RunOutcomes) :
    (exceptHandler o).1 = !exOk o.entrypoint := by
  unfold exceptHandler exOk
  cases o.entrypoint with
  | ok u => rfl
  | error e =>
    cases o.failureHook with
    | none => rfl
    | some h => cases hl : load_and_run_hook h <;> simp [hl]

/-- The trailing `StepContext._clear()` is reached iff the step already
failed (the `if not step_failed:` suite is skipped) or the whole
success-path suite — success hook, validation, storage, linking — runs
without raising. -/
theorem finallyTail_cleared (o : RunOutcomes) (sf : Bool)
    (pending : Except PyExc Unit) :
    (finallyTail o sf pending).contextCleared =
      (sf || (exOk (successHookResult o) && exOk o.validateOutputs &&
        exOk o.storeOutputs && exOk o.linkModels)) := by
  unfold finallyTail exOk
  cases sf with
  | true => rfl
  | false =>
    cases successHookResult o with
    | error e => rfl
    | ok u =>
      cases o.validateOutputs with
      | error e => rfl
      | ok v =>
        cases o.storeOutputs with
        | error e => rfl
        | ok w => cases o.linkModels <;> rfl

/-- C2 (amended): the `StepContext` singleton is cleared as the last
action of the execution scope exactly when control reaches the trailing
`StepContext._clear()`: always when the entrypoint raised (whatever the
failure hook did), and on a fully successful success path; but an
exception during the pre-entrypoint setup, the metadata
publication/cleanup at the top of the `finally` block, a non-`Exception`
success-hook failure, output validation, output storage, or model linking
aborts the scope before the clear and the context survives. -/
theorem step_context_cleared_iff (o : RunOutcomes) :
    (run o).contextCleared =
      (exOk o.preSteps && exOk o.publishAndCleanup &&
        (!exOk o.entrypoint ||
          (exOk (successHookResult o) && exOk o.validateOutputs &&
           exOk o.storeOutputs && exOk o.linkModels))) := by
  cases hpre : o.preSteps with
  | error e => simp [run, hpre, exOk]
  | ok u =>
    cases hpub : o.publishAndCleanup with
    | error e => simp [run, hpre, hpub, exOk]
    | ok v =>
      have hrun : run o = finallyTail o (exceptHandler o).1 (exceptHandler o).2 := by
        simp [run, hpre, hpub]
      rw [hrun, finallyTail_cleared, exceptHandler_fst]
      simp [exOk]

/-- The concrete execution used to refute C2 as stated: the entrypoint
succeeds but `_validate_outputs` raises inside the `finally` block. -/
def validationFailureOutcome : RunOutcomes :=
  { validateOutputs :=
      .error { kind := "StepInterfaceError", msg := "wrong output arity" } }

/-- C2 counterexample: when output validation raises, the exception aborts
the `finally` suite before the trailing `StepContext._clear()` — the
`StepInterfaceError` propagates and the `StepContext` singleton survives
the execution scope, refuting the claim that the clear happens regardless
of validation/storage/linking exceptions. -/
theorem step_context_not_cleared_on_validation_error :
    (run validationFailureOutcome).contextCleared = false ∧
    (run validationFailureOutcome).outcome =
      .error { kind := "StepInterfaceError", msg := "wrong output arity" } :=
  ⟨rfl, rfl⟩

/-- C3 (amended): when the entrypoint raises, the declared failure hook is
dispatched and — provided the hook outcome is swallowed by
`load_and_run_hook` (which is the case for every hook failure that is an
`Exception`) and the `finally`-block publication does not itself raise —
the original exception is re-raised with its type and message unchanged;
and every hook failure that is an `Exception` subclass is indeed caught
and logged by `load_and_run_hook`. -/
theorem original_exception_reraised_after_hook (o : RunOutcomes) (e : PyExc)
    (hpre : o.preSteps = .ok ()) (hent : o.entrypoint = .error e)
    (hpub : o.publishAndCleanup = .ok ())
    (hhook : ∀ h, o.failureHook = some h → load_and_run_hook h = .ok ()) :
    (run o).outcome = .error e ∧
    (∀ eh : PyExc, eh.isException = true →
      load_and_run_hook (.error eh) = .ok ()) := by
  constructor
  · have hhandler : exceptHandler o = (true, .error e) := by
      cases hfh : o.failureHook with
      | none => simp [exceptHandler, hent, hfh]
      | some h => simp [exceptHandler, hent, hfh, hhook h hfh]
    simp [run, hpre, hpub, hhandler, finallyTail]
  · intro eh hex
    simp [load_and_run_hook, hex]

/-- C3 witness: a step exception survives a failure hook that itself
raises an ordinary `Exception`. -/
theorem original_exception_reraised_after_hook_witness :
    (run { entrypoint := .error { kind := "ValueError", msg := "step failed" },
           failureHook :=
             some (.error { kind := "RuntimeError", msg := "hook failed" }) }
      ).outcome = .error { kind := "ValueError", msg := "step failed" } :=
  (original_exception_reraised_after_hook
      { entrypoint := .error { kind := "ValueError", msg := "step failed" },
        failureHook :=
          some (.error { kind := "RuntimeError", msg := "hook failed" }) }
      { kind := "ValueError", msg := "step failed" }
      rfl rfl rfl (fun h hh => by cases hh; rfl)).1

/-- The concrete execution used to refute C3 as stated: the failure hook
raises a `KeyboardInterrupt`, which `except Exception` does not catch. -/
def hookKilledOutcome : RunOutcomes :=
  { entrypoint := .error { kind := "ValueError", msg := "step failed" },
    failureHook :=
      some (.error
        { kind := "KeyboardInterrupt", msg := "", isException := false }) }

/-- C3 counterexample: a failure-hook exception that is not an `Exception`
subclass escapes `load_and_run_hook` before the bare `raise` is reached,
so it — not the original step exception — propagates from `run`: the
claim that a hook exception never replaces the original is false. -/
theorem hook_base_exception_replaces_original :
    (run hookKilledOutcome).outcome =
      .error { kind := "KeyboardInterrupt", msg := "", isException := false } ∧
    ({ kind := "KeyboardInterrupt", msg := "", isException := false } : PyExc)
      ≠ { kind := "ValueError", msg := "step failed" } :=
  ⟨rfl, by decide⟩

/-- C1: for a step declaring k > 1 outputs, whenever the entrypoint's
return value is not a list or tuple of length exactly k,
`_validate_outputs` raises a `StepInterfaceError` (the not-a-list-or-tuple
or wrong-arity variant), and the output-processing path of `run` errors
with that same exception before `_store_output_artifacts` is invoked — no
output artifact is stored. -/
theorem multi_output_arity_mismatch_fails_without_storing
    (ctx : StoreContext) (reg : MaterializerRegistry)
    (rv : PyVal) (anns : List (String × OutputSig))
    (hk : 1 < anns.length)
    (hbad : ∀ xs, asSequence rv = some xs → xs.length ≠ anns.length) :
    ∃ e, validate_outputs rv anns = .error e ∧
      process_outputs ctx reg rv anns = .error e ∧
      e.isArityFailure = true := by
  have h0 : ¬anns.length = 0 := by omega
  have h1 : ¬anns.length = 1 := by omega
  have hwrap : wrapReturn rv anns = rv := by simp [wrapReturn, h1]
  cases hseq : asSequence rv with
  | none =>
    refine ⟨.notAListOrTuple rv, ?_, ?_, rfl⟩
    · simp [validate_outputs, h0, hwrap, hseq]
    · simp [process_outputs, validate_outputs, h0, hwrap, hseq]
  | some xs =>
    have hne : anns.length ≠ xs.length := fun hc => hbad xs hseq hc.symm
    refine ⟨.wrongArity anns.length xs.length, ?_, ?_, rfl⟩
    · simp [validate_outputs, h0, hwrap, hseq, hne]
    · simp [process_outputs, validate_outputs, h0, hwrap, hseq, hne]

/-- A concrete store context with no declared materializer candidates and
an empty registry, used by the witnesses. -/
def ctxW : StoreContext :=
  { pipelineName := some "p"
    stepName := "s"
    outputMaterializers := fun _ => []
    outputArtifactUris := fun _ => ""
    outputConfigs := fun _ => Option.none
    defaultMaterializerSource := fun _ => Option.none
    outputMetadata := fun _ => []
    outputTags := fun _ => [] }

/-- An empty global materializer registry, used by the witnesses. -/
def regW : MaterializerRegistry := { entries := [] }

/-- Two `Any`-typed declared outputs, used by the C1 witness. -/
def annsTwo : List (String × OutputSig) :=
  [("a", { resolvedAnn := .any }), ("b", { resolvedAnn := .any })]

/-- C1 witness: a step declaring two outputs whose entrypoint returns the
bare integer 3 fails with an arity-shaped `StepInterfaceError` and stores
nothing. -/
theorem multi_output_arity_mismatch_fails_without_storing_witness :
    ∃ e, validate_outputs (.int 3) annsTwo = .error e ∧
      process_outputs ctxW regW (.int 3) annsTwo = .error e ∧
      e.isArityFailure = true :=
  multi_output_arity_mismatch_fails_without_storing ctxW regW (.int 3) annsTwo
    (by decide) (fun xs h => nomatch h)

/-- Every error of the type-checking loop of `_validate_outputs` is a
wrong-output-type `StepInterfaceError`. -/
theorem validateOutputTypes_ok_or_wrongType (vs : List PyVal) :
    ∀ sigs : List (String × OutputSig),
      (∃ l, validateOutputTypes vs sigs = .ok l) ∨
      (∃ nm ann aty,
        validateOutputTypes vs sigs = .error (.wrongType nm ann aty)) := by
  induction vs with
  | nil => intro sigs; cases sigs <;> exact Or.inl ⟨[], rfl⟩
  | cons v vs ih =>
    intro sigs
    cases sigs with
    | nil => exact Or.inl ⟨[], rfl⟩
    | cons sg sigs =>
      obtain ⟨nm, sig⟩ := sg
      cases hc : checkOutputType nm sig.resolvedAnn v with
      | some e =>
        have : ∃ aty, e = .wrongType nm sig.resolvedAnn aty := by
          cases hann : sig.resolvedAnn with
          | any => simp [checkOutputType, hann] at hc
          | ty t =>
            cases hin : isinstance v t with
            | true => simp [checkOutputType, hann, hin] at hc
            | false =>
              simp [checkOutputType, hann, hin] at hc
              exact ⟨v.typeOf, hc.symm⟩
          | unionOf ts =>
            cases hin : ts.any (fun t => isinstance v t) with
            | true => simp [checkOutputType, hann, hin] at hc
            | false =>
              simp [checkOutputType, hann, hin] at hc
              exact ⟨v.typeOf, hc.symm⟩
        obtain ⟨aty, rfl⟩ := this
        exact Or.inr ⟨nm, sig.resolvedAnn, aty,
          by simp [validateOutputTypes, hc]⟩
      | none =>
        rcases ih sigs with ⟨l, hl⟩ | ⟨nm2, ann2, aty2, he⟩
        · exact Or.inl ⟨(nm, v) :: l, by simp [validateOutputTypes, hc, hl]⟩
        · exact Or.inr ⟨nm2, ann2, aty2,
            by simp [validateOutputTypes, hc, he]⟩

/-- When the type-checking loop of `_validate_outputs` accepts, every
zipped (value, declared output) pair passed its per-output check. -/
theorem validateOutputTypes_ok_checks (vs : List PyVal) :
    ∀ (sigs : List (String × OutputSig)) (l : List (String × PyVal)),
      validateOutputTypes vs sigs = .ok l →
      ∀ p ∈ vs.zip sigs,
        checkOutputType p.2.1 p.2.2.resolvedAnn p.1 = Option.none := by
  induction vs with
  | nil => intro sigs l _ p hp; simp at hp
  | cons v vs ih =>
    intro sigs l hok p hp
    cases sigs with
    | nil => simp at hp
    | cons sg sigs =>
      obtain ⟨nm, sig⟩ := sg
      cases hc : checkOutputType nm sig.resolvedAnn v with
      | some e => simp [validateOutputTypes, hc] at hok
      | none =>
        rcases List.mem_cons.mp hp with rfl | hmem
        · exact hc
        · cases hrest : validateOutputTypes vs sigs with
          | error e2 => simp [validateOutputTypes, hc, hrest] at hok
          | ok l2 => exact ih sigs l2 hrest p hmem

/-- C5: whenever a declared output's resolved annotation is a concrete
type (not `Any`) and the corresponding return value is not an instance of
that type, `_validate_outputs` raises a wrong-output-type
`StepInterfaceError`, and the output-processing path of `run` errors with
that same exception before any output artifact is written to the store. -/
theorem concrete_output_type_mismatch_fails_without_storing
    (ctx : StoreContext) (reg : MaterializerRegistry)
    (rv : PyVal) (anns : List (String × OutputSig)) (vs : List PyVal)
    (h0 : anns.length ≠ 0)
    (hseq : asSequence (wrapReturn rv anns) = some vs)
    (hlen : anns.length = vs.length)
    (hbad : ∃ p ∈ vs.zip anns, ∃ t,
        p.2.2.resolvedAnn = .ty t ∧ isinstance p.1 t = false) :
    ∃ nm ann aty,
      validate_outputs rv anns = .error (.wrongType nm ann aty) ∧
      process_outputs ctx reg rv anns = .error (.wrongType nm ann aty) := by
  have hval : validate_outputs rv anns = validateOutputTypes vs anns := by
    simp only [validate_outputs, if_neg h0, hseq]
    rw [if_neg (not_ne_iff.mpr hlen)]
  obtain ⟨p, hmem, t, hty, hinst⟩ := hbad
  rcases validateOutputTypes_ok_or_wrongType vs anns with ⟨l, hok⟩ |
    ⟨nm, ann, aty, herr⟩
  · exfalso
    have hchk := validateOutputTypes_ok_checks vs anns l hok p hmem
    rw [hty] at hchk
    simp [checkOutputType, hinst] at hchk
  · exact ⟨nm, ann, aty, by rw [hval, herr],
      by simp [process_outputs, hval, herr]⟩

/-- One declared `int`-typed output, used by the C5 witness. -/
def annsInt : List (String × OutputSig) := [("o", { resolvedAnn := .ty .intT })]

/-- C5 witness: a step declaring one `int` output whose entrypoint returns
a string fails with a wrong-output-type `StepInterfaceError` and stores
nothing. -/
theorem concrete_output_type_mismatch_fails_without_storing_witness :
    ∃ nm ann aty,
      validate_outputs (.str "x") annsInt = .error (.wrongType nm ann aty) ∧
      process_outputs ctxW regW (.str "x") annsInt =
        .error (.wrongType nm ann aty) :=
  concrete_output_type_mismatch_fails_without_storing ctxW regW (.str "x")
    annsInt [.str "x"] (by decide) rfl rfl
    ⟨(.str "x", ("o", { resolvedAnn := .ty .intT })),
      List.Mem.head _, .intT, rfl, rfl⟩

/-- The concrete output configuration used to refute C4: the first
published artifact has an artifact config with no model binding, the
second declares a model binding. -/
def cfgBreak : String → Option ArtifactConfig := fun nm =>
  if nm = "first" then some {}
  else if nm = "second" then
    some { model := some { modelId := 1, versionId := 2 } }
  else Option.none

/-- C4 counterexample: the `break` in
`_get_model_versions_from_artifacts` stops the scan at the first artifact
whose config declares no model binding, so the second artifact's declared
binding (1, 2) is skipped and the linker links the run to no model
version at all — refuting the claim that no output artifact's declared
model binding is skipped regardless of order. -/
theorem model_binding_skipped_after_unbound_config :
    (cfgBreak "second").bind (fun c => c.model) =
      some { modelId := 1, versionId := 2 } ∧
    get_model_versions_from_artifacts cfgBreak ["first", "second"] = ∅ ∧
    link_pipeline_run_to_model_from_artifacts cfgBreak ["first", "second"] []
      = ∅ :=
  ⟨rfl, rfl, rfl⟩

/-- The scan of `_get_model_versions_from_artifacts` collects exactly the
bindings declared in the longest prefix of the artifact names that
precedes the first config-without-binding artifact. -/
theorem get_model_versions_eq_prefix_bindings
    (cfg : String → Option ArtifactConfig) (names : List String) :
    get_model_versions_from_artifacts cfg names =
      declaredBindings cfg
        (names.takeWhile (fun nm => !stopsScan cfg nm)) := by
  induction names with
  | nil => rfl
  | cons nm rest ih =>
    cases hc : cfg nm with
    | none =>
      have hs : stopsScan cfg nm = false := by simp [stopsScan, hc]
      simp [get_model_versions_from_artifacts, declaredBindings,
        List.takeWhile_cons, hc, hs, ih]
    | some c =>
      cases hm : c.model with
      | none =>
        have hs : stopsScan cfg nm = true := by simp [stopsScan, hc, hm]
        simp [get_model_versions_from_artifacts, declaredBindings,
          List.takeWhile_cons, hc, hm, hs]
      | some m =>
        have hs : stopsScan cfg nm = false := by simp [stopsScan, hc, hm]
        simp [get_model_versions_from_artifacts, declaredBindings,
          List.takeWhile_cons, hc, hm, hs, ih]

/-- C4 (amended): after a successful step, the linker links the pipeline
run to each distinct (model, model version) pair collected from the
output artifacts scanned in order only up to (excluding) the first
artifact whose artifact config is present but declares no model binding —
bindings declared after that artifact are skipped, while artifacts with
no artifact config at all are passed over without stopping the scan —
together with the bindings of the externally-supplied input artifacts;
linking is per distinct pair, as the pairs form a set. -/
theorem linker_links_prefix_bindings_and_externals
    (cfg : String → Option ArtifactConfig) (names : List String)
    (externals : List ExternalArtifactCfg) :
    link_pipeline_run_to_model_from_artifacts cfg names externals =
      addExternalModels externals
        (declaredBindings cfg
          (names.takeWhile (fun nm => !stopsScan cfg nm))) := by
  unfold link_pipeline_run_to_model_from_artifacts
  rw [get_model_versions_eq_prefix_bindings]

/-- Whatever the materializer selection returned, the stored artifact's
logical name is the one computed by the naming block. -/
theorem storeOne_name (ctx : StoreContext) (reg upd : MaterializerRegistry)
    (nm : String) (v : PyVal) (a : StoredArtifact)
    (h : storeOne ctx reg nm v = .ok (upd, a)) :
    a.name = artifactNameFor ctx nm := by
  unfold storeOne at h
  cases hsel : selectOutputMaterializer ctx reg nm v.typeOf with
  | error e => rw [hsel] at h; cases h
  | ok pm =>
    obtain ⟨u, m⟩ := pm
    rw [hsel] at h
    simp only [Except.ok.injEq, Prod.mk.injEq] at h
    rw [← h.2]

/-- C6: the logical name of every stored output artifact is the
explicitly configured custom name when the output's artifact config
declares one, and otherwise the derived
`pipeline::step::output` composite (with `"unlisted"` when the run has no
pipeline). The hypothesis `hkey` is the upstream invariant — modelled
from the spec, since the annotation-parsing code that applies it is not
in the sources — that ZenML keys a step's outputs by the configured
custom artifact name, so the output name under which the value is stored
equals the configured name. -/
theorem stored_artifact_logical_name (ctx : StoreContext)
    (reg upd : MaterializerRegistry) (nm : String) (v : PyVal)
    (a : StoredArtifact)
    (hstore : storeOne ctx reg nm v = .ok (upd, a)) :
    (∀ c s, ctx.outputConfigs nm = some c → c.name = some s → s ≠ "" →
      nm = s → a.name = s) ∧
    (hasCustomName (ctx.outputConfigs nm) = false →
      a.name = (ctx.pipelineName.getD "unlisted") ++ "::" ++ ctx.stepName
        ++ "::" ++ nm) := by
  have hname := storeOne_name ctx reg upd nm v a hstore
  constructor
  · intro c s hc hs hne hkey
    have hcustom : hasCustomName (ctx.outputConfigs nm) = true := by
      simp [hasCustomName, hc, hs, hne]
    rw [hname, artifactNameFor, if_pos hcustom, hkey]
  · intro hno
    rw [hname, artifactNameFor, if_neg (by simp [hno])]
    cases ctx.pipelineName <;> rfl

/-- A materializer accepting integers, used by the witnesses. -/
def matInt : MaterializerClass := { id := 1, associated := [.intT] }

/-- A materializer accepting strings, used by the witnesses. -/
def matStr : MaterializerClass := { id := 2, associated := [.strT] }

/-- The concrete store context of the C6 witness: the output `foo`
declares the custom artifact name `foo` and one declared materializer
candidate. -/
def ctxNamed : StoreContext :=
  { pipelineName := some "pipe"
    stepName := "step"
    outputMaterializers := fun _ => [matInt]
    outputArtifactUris := fun _ => "uri"
    outputConfigs := fun _ => some { name := some "foo" }
    defaultMaterializerSource := fun _ => Option.none
    outputMetadata := fun _ => []
    outputTags := fun _ => [] }

/-- The artifact stored for output `foo` of `ctxNamed`. -/
def storedNamed : StoredArtifact :=
  { name := "foo"
    hasCustom := true
    version := Option.none
    materializer := matInt
    data := .int 1
    uri := "uri"
    tags := []
    userMetadata := [] }

/-- C6 witness: an output with configured custom name `foo` is stored
under the logical name `foo`. -/
theorem stored_artifact_logical_name_witness : storedNamed.name = "foo" :=
  (stored_artifact_logical_name ctxNamed regW regW "foo" (.int 1)
      storedNamed rfl).1
    { name := some "foo" } "foo" rfl rfl (by decide) rfl

/-- `List.find?` returns the first element satisfying the predicate. -/
theorem find_first (p : MaterializerClass → Bool) :
    ∀ (pre : List MaterializerClass) (x : MaterializerClass)
      (post : List MaterializerClass),
      (∀ y ∈ pre, p y = false) → p x = true →
      (pre ++ x :: post).find? p = some x := by
  intro pre
  induction pre with
  | nil => intro x post _ hx; simp [List.find?, hx]
  | cons a l ih =>
    intro x post hpre hx
    have ha : p a = false := hpre a (List.mem_cons_self a l)
    rw [List.cons_append]
    simp only [List.find?, ha]
    exact ih x post (fun y hy => hpre y (List.mem_cons_of_mem a hy)) hx

/-- C8: materializer selection for an output is deterministic. With a
non-empty declared candidate list, the first declared candidate matching
the value's runtime type is selected (and the global registry is left
untouched). With no declared candidates, the selection falls back to the
global registry keyed by the exact runtime type; when no exact entry
exists the registry's default entry — explicitly settable through the
step config's `default_materializer_source` — is used. -/
theorem materializer_selection_rule (ctx : StoreContext)
    (reg : MaterializerRegistry) (nm : String) (t : PyType) :
    (∀ pre m post,
      ctx.outputMaterializers nm = pre ++ m :: post →
      (∀ m2 ∈ pre, m2.associated.contains t = false) →
      m.associated.contains t = true →
      selectOutputMaterializer ctx reg nm t = .ok (reg, m)) ∧
    (∀ m, ctx.outputMaterializers nm = [] →
      (installDefault ctx reg nm).entries.lookup t = some m →
      selectOutputMaterializer ctx reg nm t =
        .ok (installDefault ctx reg nm, m)) ∧
    (∀ d, ctx.outputMaterializers nm = [] →
      (installDefault ctx reg nm).entries.lookup t = Option.none →
      (installDefault ctx reg nm).defaultMaterializer = some d →
      selectOutputMaterializer ctx reg nm t =
        .ok (installDefault ctx reg nm, d)) ∧
    (∀ d, ctx.defaultMaterializerSource nm = some d →
      (installDefault ctx reg nm).defaultMaterializer = some d) := by
  refine ⟨?_, ?_, ?_, ?_⟩
  · intro pre m post hcls hpre hm
    have hsel : select_materializer t (ctx.outputMaterializers nm)
        = some m := by
      unfold select_materializer
      rw [hcls]
      exact find_first _ pre m post hpre hm
    have hne : (ctx.outputMaterializers nm).isEmpty = false := by
      rw [hcls]; cases pre <;> rfl
    simp only [selectOutputMaterializer]
    rw [if_neg (by simp [hne]), hsel]
  · intro m hcls hlook
    simp [selectOutputMaterializer, hcls, registryLookup, hlook]
  · intro d hcls hlook hdef
    simp [selectOutputMaterializer, hcls, registryLookup, hlook, hdef]
  · intro d hsrc
    simp [installDefault, hsrc]

/-- The store context of the C8 witness: output `o` declares the
candidate list `[matStr, matInt]`. -/
def ctxCandidates : StoreContext :=
  { ctxNamed with outputMaterializers := fun _ => [matStr, matInt] }

/-- C8 witness: for an `int`-typed value, the non-matching first
candidate `matStr` is passed over and the first matching declared
candidate `matInt` is selected, leaving the registry untouched. -/
theorem materializer_selection_rule_witness :
    selectOutputMaterializer ctxCandidates regW "o" .intT =
      .ok (regW, matInt) :=
  (materializer_selection_rule ctxCandidates regW "o" .intT).1
    [matStr] matInt [] rfl (by decide) (by decide)

/-- Every binding produced by a successful run of the argument loop of
`_parse_inputs` is the one the if/elif chain assigns to that argument. -/
theorem parseInputsLoop_ok_binding (env : ParseEnv) (ann : String → ArgAnn) :
    ∀ (args : List String) (l : List (String × BoundArg)) (arg : String)
      (b : BoundArg),
      parseInputsLoop env ann args = .ok l → (arg, b) ∈ l →
      resolveArg env ann arg = some b := by
  intro args
  induction args with
  | nil =>
    intro l arg b h hm
    simp only [parseInputsLoop, Except.ok.injEq] at h
    rw [← h] at hm
    simp at hm
  | cons a rest ih =>
    intro l arg b h hm
    cases hr : resolveArg env ann a with
    | none => simp [parseInputsLoop, hr] at h
    | some b0 =>
      cases hrest : parseInputsLoop env ann rest with
      | error e => simp [parseInputsLoop, hr, hrest] at h
      | ok restB =>
        simp only [parseInputsLoop, hr, hrest, Except.ok.injEq] at h
        rw [← h] at hm
        rcases List.mem_cons.mp hm with heq | hmem
        · injection heq with h1 h2
          rw [h1, h2]
          exact hr
        · exact ih restB arg b hrest hmem

/-- An argument the if/elif chain cannot satisfy makes the argument loop
of `_parse_inputs` raise `RuntimeError`. -/
theorem parseInputsLoop_unsat_errors (env : ParseEnv) (ann : String → ArgAnn) :
    ∀ (args : List String) (arg : String), arg ∈ args →
      resolveArg env ann arg = Option.none →
      ∃ msg, parseInputsLoop env ann args = .error msg := by
  intro args
  induction args with
  | nil => intro arg h; cases h
  | cons a rest ih =>
    intro arg hm hnone
    rcases List.mem_cons.mp hm with rfl | hmem
    · exact ⟨"Unable to find value for step function argument " ++ arg,
        by simp [parseInputsLoop, hnone]⟩
    · cases hr : resolveArg env ann a with
      | none =>
        exact ⟨"Unable to find value for step function argument " ++ a,
          by simp [parseInputsLoop, hr]⟩
      | some b0 =>
        obtain ⟨msg, hmsg⟩ := ih arg hmem hnone
        exact ⟨msg, by simp [parseInputsLoop, hr, hmsg]⟩

/-- C9: entrypoint argument resolution follows a fixed precedence order.
A `StepContext`-typed argument is always injected from the live context;
otherwise an argument named in the input-artifact map is bound to the
materialized artifact, even when a literal parameter of the same name
also exists; an argument in neither of those falls through to the
configured parameters; and an argument satisfiable by no source makes
`_parse_inputs` raise `RuntimeError`. -/
theorem parse_inputs_precedence (env : ParseEnv) (ann : String → ArgAnn) :
    (∀ args l arg b,
      parse_inputs env ann args = .ok l → (arg, b) ∈ l →
      ((ann arg = .stepContextClass → b = .context) ∧
       (ann arg ≠ .stepContextClass →
         ∀ a, env.inputArtifacts.lookup arg = some a → b = .artifact a) ∧
       (ann arg ≠ .stepContextClass →
         env.inputArtifacts.lookup arg = Option.none →
         ∀ v, env.parameters.lookup arg = some v → b = .param v))) ∧
    (∀ args arg, arg ∈ stripSelf args →
      ann arg ≠ .stepContextClass →
      env.inputArtifacts.lookup arg = Option.none →
      env.parameters.lookup arg = Option.none →
      ∃ msg, parse_inputs env ann args = .error msg) := by
  constructor
  · intro args l arg b hok hm
    have hres := parseInputsLoop_ok_binding env ann (stripSelf args) l arg b
      hok hm
    refine ⟨?_, ?_, ?_⟩
    · intro hctx
      simp only [resolveArg, if_pos hctx, Option.some.injEq] at hres
      exact hres.symm
    · intro hctx a ha
      simp only [resolveArg, if_neg hctx, ha, Option.some.injEq] at hres
      exact hres.symm
    · intro hctx hnoart v hv
      simp only [resolveArg, if_neg hctx, hnoart, hv,
        Option.some.injEq] at hres
      exact hres.symm
  · intro args arg hmem hctx hnoart hnopar
    exact parseInputsLoop_unsat_errors env ann (stripSelf args) arg hmem
      (by simp [resolveArg, hctx, hnoart, hnopar])

/-- The parse environment of the C9 witness: the name `x` is present both
in the input-artifact map and in the literal parameters. -/
def envBoth : ParseEnv :=
  { inputArtifacts := [("x", { id := 7 })]
    parameters := [("x", .int 1)] }

/-- C9 witness: with `x` present in both maps and not
`StepContext`-typed, `_parse_inputs` binds `x` to the materialized input
artifact, not the literal parameter. -/
theorem parse_inputs_precedence_witness :
    parse_inputs envBoth (fun _ => .otherAnn) ["self", "x"]
      = .ok [("x", .artifact { id := 7 })] ∧
    envBoth.parameters.lookup "x" = some (.int 1) ∧
    BoundArg.artifact { id := 7 } = .artifact { id := 7 } :=
  ⟨rfl, rfl,
    (((parse_inputs_precedence envBoth (fun _ => .otherAnn)).1 ["self", "x"]
        [("x", .artifact { id := 7 })] "x" (.artifact { id := 7 }) rfl
        (List.Mem.head _)).2.1 (by decide) { id := 7 } rfl).symm⟩

end ZenML
